import Mathlib

/-!
Verification development for the Courier-App server (`src/server.js`).

The file shallowly embeds the subsystems covered by the specification:
the sequence allocator used by `POST /shipments` and `POST /delivery-notes`,
the two `wrapText` word-wrapping functions (SQLite variant, lines 579-595,
and MySQL variant, lines 1252-1269), the waybill header-box sizing and the
two-pass page-finalization loop of `GET /shipments/:trackingNumber/waybill`,
and the delivery-note derived arithmetic (subtotal / VAT / total).

JavaScript numbers are modelled as `Option ℚ`, where `none` stands for `NaN`
and `some q` for a finite value; machine-float rounding is abstracted away,
decimal literals are read as the rationals they denote.
-/

namespace Courier

/-! ## JavaScript value model -/

/-- A JavaScript value as it occurs in the request bodies and database rows
this server manipulates: a number (`none` = `NaN`), a string, `null`,
`undefined`, or a boolean. -/
inductive JsVal where
  | num (q : Option ℚ)
  | str (s : String)
  | nullv
  | undefv
  | boolv (b : Bool)
deriving DecidableEq

/-- JavaScript truthiness of a `JsVal`: `0`, `NaN`, `""`, `null`,
`undefined` and `false` are falsy. -/
def truthy : JsVal → Bool
  | .num (some q) => decide (q ≠ 0)
  | .num none => false
  | .str s => decide (s ≠ "")
  | .nullv => false
  | .undefv => false
  | .boolv b => b

/-- `typeof v === 'number'` (true also for `NaN`). -/
def isNumber : JsVal → Bool
  | .num _ => true
  | _ => false

/-- Numeric value of a digit list read in base 10. -/
def digitsVal (cs : List Char) : ℕ :=
  cs.foldl (fun a c => a * 10 + (c.toNat - 48)) 0

/-- `parseFloat` on a string: skip leading whitespace, optional sign, the
longest prefix `digits [ '.' digits ]`; `none` (`NaN`) when no digit is
found.  Exponent suffixes are not modelled (none of the inputs considered
here use them). -/
def parseFloatStr (s : String) : Option ℚ :=
  let cs := s.toList.dropWhile Char.isWhitespace
  let signed : ℚ × List Char :=
    match cs with
    | '-' :: rest => (-1, rest)
    | '+' :: rest => (1, rest)
    | _ => (1, cs)
  let intPart := signed.2.takeWhile Char.isDigit
  let rest := signed.2.dropWhile Char.isDigit
  let fracPart :=
    match rest with
    | '.' :: r => r.takeWhile Char.isDigit
    | _ => []
  if intPart.isEmpty && fracPart.isEmpty then none
  else
    some (signed.1 * ((digitsVal intPart : ℚ) +
      (digitsVal fracPart : ℚ) / (10 : ℚ) ^ fracPart.length))

/-- `parseFloat(v)` for a `JsVal` (`parseFloat` coerces its argument to a
string first; on `null`, `undefined` and booleans the result is `NaN`). -/
def parseFloat : JsVal → Option ℚ
  | .num o => o
  | .str s => parseFloatStr s
  | _ => none

/-- JavaScript `+` on numbers: `NaN` propagates. -/
def jadd : Option ℚ → Option ℚ → Option ℚ
  | some a, some b => some (a + b)
  | _, _ => none

/-- JavaScript `*` on numbers: `NaN` propagates (no infinities arise in the
values this server computes with). -/
def jmul : Option ℚ → Option ℚ → Option ℚ
  | some a, some b => some (a * b)
  | _, _ => none

/-! ## LineWrapper (`wrapText`, both server variants) -/

/-- One iteration of the `for (const word of words)` loop shared by both
`wrapText` variants: `testLine = currentLine + (currentLine ? ' ' : '') + word`;
if it measures over `maxWidth` close the current line, else extend it.
State is `(lines, currentLine)`. -/
def wrapStep (measure : String → ℚ) (maxWidth : ℚ)
    (st : List String × String) (word : String) : List String × String :=
  let testLine := st.2 ++ (if st.2 = "" then "" else " ") ++ word
  if measure testLine > maxWidth then (st.1 ++ [st.2], word)
  else (st.1, testLine)

/-- The loop body applied to the whole word list followed by the final
`lines.push(currentLine)`, shared by both variants. -/
def wrapRun (measure : String → ℚ) (maxWidth : ℚ) (words : List String) :
    List String :=
  let st := words.foldl (wrapStep measure maxWidth) ([], "")
  st.1 ++ [st.2]

/-- JavaScript `.split(' ')` on a character list: splits at every single
space and keeps empty fragments, so the empty input yields `[[]]`. -/
def splitSpaces : List Char → List (List Char)
  | [] => [[]]
  | c :: rest =>
    match splitSpaces rest with
    | [] => [[]]
    | w :: ws => if c = ' ' then [] :: w :: ws else (c :: w) :: ws

/-- JavaScript `text.split(' ')` (`"".split(' ')` is `[""]`). -/
def jsSplit (s : String) : List String :=
  (splitSpaces s.toList).map String.mk

/-- `wrapText` of the SQLite server variant (src/server.js:579-595):
`const words = text ? String(text).split(' ') : [];` then the greedy loop,
then `lines.push(currentLine)`.  `text` is `none` for `null`/`undefined`. -/
def wrapText (text : Option String) (measure : String → ℚ) (maxWidth : ℚ) :
    List String :=
  let words : List String :=
    match text with
    | some s => if s = "" then [] else jsSplit s
    | none => []
  wrapRun measure maxWidth words

/-- The replacement `/(\r\n|\n|\r)/gm → " "` of the MySQL variant: leftmost
match, `\r\n` tried first, each match replaced by a single space. -/
def sanitizeChars : List Char → List Char
  | [] => []
  | '\r' :: '\n' :: rest => ' ' :: sanitizeChars rest
  | '\r' :: rest => ' ' :: sanitizeChars rest
  | '\n' :: rest => ' ' :: sanitizeChars rest
  | c :: rest => c :: sanitizeChars rest

/-- String form of `String(text).replace(/(\r\n|\n|\r)/gm, " ")`. -/
def sanitize (s : String) : String :=
  String.mk (sanitizeChars s.toList)

/-- `wrapText` of the MySQL server variant (src/server.js:1252-1269):
`const sanitizedText = text ? String(text).replace(/(\r\n|\n|\r)/gm, " ") : "";`
then `sanitizedText.split(' ')` (which yields `[""]` on the empty string),
then the same greedy loop. -/
def wrapTextMy (text : Option String) (measure : String → ℚ) (maxWidth : ℚ) :
    List String :=
  let sanitizedText : String :=
    match text with
    | some s => if s = "" then "" else sanitize s
    | none => ""
  wrapRun measure maxWidth (jsSplit sanitizedText)

/-! ## Database model

The tables the claims touch: `counters`, `shipments`, `shipment_elements`,
`delivery_notes`, `delivery_note_items`.  Row ids are modelled by position
(`AUTOINCREMENT` surrogate). -/

/-- An element of a shipment-creation request body. -/
structure ElementReq where
  description : JsVal
  quantity : JsVal
deriving DecidableEq

/-- Request body of `POST /shipments` (src/server.js:282-287). -/
structure ShipmentReq where
  senderName : JsVal
  senderContact : JsVal
  senderAddress : JsVal
  recipientName : JsVal
  recipientContact : JsVal
  recipientAddress : JsVal
  associatedJobNo : JsVal
  ceNumber : JsVal
  elements : Option (List ElementReq)
  courier_charge : JsVal
deriving DecidableEq

/-- A row of the `shipments` table (the columns the claims use;
`courier_charge` is `REAL` or `NULL`). -/
structure ShipmentRow where
  id : ℕ
  trackingNumber : String
  senderName : JsVal
  senderContact : JsVal
  senderAddress : JsVal
  recipientName : JsVal
  recipientContact : JsVal
  recipientAddress : JsVal
  associatedJobNo : JsVal
  ceNumber : JsVal
  status : JsVal
  createdAt : String
  courier_charge : Option ℚ
deriving DecidableEq

/-- A row of `shipment_elements`. -/
structure ElementRow where
  shipment_id : ℕ
  description : JsVal
  quantity : JsVal
deriving DecidableEq

/-- An item of a delivery-note-creation request body. -/
structure NoteItemReq where
  description : JsVal
  quantity : JsVal
  price : JsVal
deriving DecidableEq

/-- Request body of `POST /delivery-notes` (src/server.js:508). -/
structure NoteReq where
  clientName : JsVal
  date : JsVal
  address : JsVal
  contactPerson : JsVal
  contactNumber : JsVal
  jobNo : JsVal
  ceNumber : JsVal
  items : List NoteItemReq
deriving DecidableEq

/-- A row of the `delivery_notes` table (monetary fields are JS numbers,
`none` = `NaN`). -/
structure NoteRow where
  id : ℕ
  deliveryNoteNumber : String
  clientName : JsVal
  date : JsVal
  address : JsVal
  contactPerson : JsVal
  contactNumber : JsVal
  jobNo : JsVal
  ceNumber : JsVal
  subtotal : Option ℚ
  vat : Option ℚ
  total : Option ℚ
  createdAt : String
deriving DecidableEq

/-- A row of `delivery_note_items`. -/
structure ItemRow where
  delivery_note_id : ℕ
  quantity : JsVal
  description : JsVal
  price : JsVal
deriving DecidableEq

/-- The database state the creation endpoints read and write. -/
structure DB where
  counters : List (String × ℤ)
  shipments : List ShipmentRow
  shipment_elements : List ElementRow
  delivery_notes : List NoteRow
  delivery_note_items : List ItemRow
deriving DecidableEq

/-- `SELECT currentNumber FROM counters WHERE name = ?`. -/
def lookupC (cs : List (String × ℤ)) (name : String) : Option ℤ :=
  (cs.find? (fun r => r.1 == name)).map (fun r => r.2)

/-- `UPDATE counters SET currentNumber = ? WHERE name = ?`: modifies the
matching rows, inserts nothing when no row matches. -/
def countersUpdate (cs : List (String × ℤ)) (name : String) (v : ℤ) :
    List (String × ℤ) :=
  cs.map (fun r => if r.1 == name then (r.1, v) else r)

/-- `INSERT OR IGNORE INTO counters (name, currentNumber) VALUES (?, ?)`. -/
def insertOrIgnore (cs : List (String × ℤ)) (name : String) (v : ℤ) :
    List (String × ℤ) :=
  if cs.any (fun r => r.1 == name) then cs else cs ++ [(name, v)]

/-- The counter seeding performed by `initializeDatabase`
(src/server.js:69 and 96): both counters inserted at 1000 if absent. -/
def initializeCounters (cs : List (String × ℤ)) : List (String × ℤ) :=
  insertOrIgnore (insertOrIgnore cs "shipmentCounter" 1000) "deliveryNoteCounter" 1000

/-- `v || null` as stored in a column: falsy values become `NULL`. -/
def jsOrNull (v : JsVal) : JsVal :=
  if truthy v then v else .nullv

/-- `const finalCharge = parseFloat(courier_charge) || null;`
(src/server.js:299): `NaN` and `0` collapse to `NULL`. -/
def finalChargeOf (v : JsVal) : Option ℚ :=
  match parseFloat v with
  | some q => if q = 0 then none else some q
  | none => none

/-! ## POST /shipments (src/server.js:281-334)

The handler runs `BEGIN TRANSACTION`, reads `shipmentCounter`, computes
`newCount = (counter ? counter.currentNumber : 1000) + 1` and the tracking
number `T${newCount}`, inserts the shipment row, inserts each element with
truthy `description` and `quantity`, updates the counter, and commits.
The statements between `BEGIN` and `COMMIT` are listed in order so that the
failure/rollback behaviour can be stated. -/

/-- The counter value the handler reads and increments. -/
def shipmentNewCount (db : DB) : ℤ :=
  (match lookupC db.counters "shipmentCounter" with
   | some c => c
   | none => 1000) + 1

/-- `const trackingNumber = ` T${newCount}` `. -/
def shipmentTrackingNumber (db : DB) : String :=
  "T" ++ toString (shipmentNewCount db)

/-- The element requests the loop actually inserts: present, array, and
each with truthy `description` and `quantity` (src/server.js:318-324). -/
def elementsOf (req : ShipmentReq) : List ElementReq :=
  match req.elements with
  | some l => l.filter (fun e => truthy e.description && truthy e.quantity)
  | none => []

/-- The shipment row built from the request (src/server.js:301-307);
`|| null` coercions applied as in the source. -/
def shipmentRowOf (db : DB) (req : ShipmentReq) (now : String) : ShipmentRow where
  id := db.shipments.length + 1
  trackingNumber := shipmentTrackingNumber db
  senderName := req.senderName
  senderContact := jsOrNull req.senderContact
  senderAddress := req.senderAddress
  recipientName := req.recipientName
  recipientContact := jsOrNull req.recipientContact
  recipientAddress := req.recipientAddress
  associatedJobNo := jsOrNull req.associatedJobNo
  ceNumber := jsOrNull req.ceNumber
  status := .str "Pending"
  createdAt := now
  courier_charge := finalChargeOf req.courier_charge

/-- `INSERT INTO shipments ...` as a state update. -/
def shipmentInsert (row : ShipmentRow) (d : DB) : DB :=
  { d with shipments := d.shipments ++ [row] }

/-- `INSERT INTO shipment_elements ...` as a state update. -/
def elemInsert (er : ElementRow) (d : DB) : DB :=
  { d with shipment_elements := d.shipment_elements ++ [er] }

/-- `UPDATE counters SET currentNumber = ? WHERE name = ?` as a state
update. -/
def counterWrite (name : String) (v : ℤ) (d : DB) : DB :=
  { d with counters := countersUpdate d.counters name v }

/-- The ordered list of write statements `POST /shipments` issues between
`BEGIN TRANSACTION` and `COMMIT` (src/server.js:294-327), with the values
read at the start of the transaction. -/
def shipmentWrites (db : DB) (req : ShipmentReq) (now : String) :
    List (DB → DB) :=
  let row := shipmentRowOf db req now
  [shipmentInsert row]
    ++ (elementsOf req).map (fun e =>
        elemInsert ⟨row.id, e.description, e.quantity⟩)
    ++ [counterWrite "shipmentCounter" (shipmentNewCount db)]

/-- Applies a list of write statements in order. -/
def applyWrites (db : DB) (ws : List (DB → DB)) : DB :=
  ws.foldl (fun d w => w d) db

/-- The committed effect of a successful `POST /shipments`, and the tracking
number it responds with. -/
def createShipment (db : DB) (req : ShipmentReq) (now : String) :
    DB × String :=
  (applyWrites db (shipmentWrites db req now), shipmentTrackingNumber db)

/-- Executes `POST /shipments` with a fault-injection point: `failAt = some k`
means the k-th statement after `BEGIN` (or the `COMMIT` itself, for large k)
raises; the handler's `catch` issues `ROLLBACK` (src/server.js:330) and the
store restores the snapshot taken at `BEGIN`, so the visible state is the
initial one and no tracking number is returned. -/
def runShipmentTx (db : DB) (req : ShipmentReq) (now : String)
    (failAt : Option ℕ) : DB × Option String :=
  match failAt with
  | none => (applyWrites db (shipmentWrites db req now),
             some (shipmentTrackingNumber db))
  | some _ => (db, none)

/-! ## POST /delivery-notes (src/server.js:507-546) -/

/-- `items.reduce((acc, item) => acc + (parseFloat(item.quantity) *
parseFloat(item.price)), 0)` (src/server.js:517): the subtotal ranges over
every submitted item; `NaN` propagates. -/
def itemsSubtotal (items : List NoteItemReq) : Option ℚ :=
  items.foldl (fun acc item =>
    jadd acc (jmul (parseFloat item.quantity) (parseFloat item.price)))
    (some 0)

/-- The insertion guard of the item loop (src/server.js:533):
`item.description && item.quantity && typeof item.price === 'number'`. -/
def validInsert (item : NoteItemReq) : Bool :=
  truthy item.description && truthy item.quantity && isNumber item.price

/-- The counter value `POST /delivery-notes` reads and increments. -/
def noteNewCount (db : DB) : ℤ :=
  (match lookupC db.counters "deliveryNoteCounter" with
   | some c => c
   | none => 1000) + 1

/-- `const deliveryNoteNumber = ` DN${newCount}` `. -/
def noteNumber (db : DB) : String :=
  "DN" ++ toString (noteNewCount db)

/-- The delivery-note row built by the handler: `vat = subtotal * 0.15`,
`total = subtotal + vat` (src/server.js:517-527). -/
def noteRowOf (db : DB) (req : NoteReq) (now : String) : NoteRow :=
  let subtotal := itemsSubtotal req.items
  let vat := jmul subtotal (some (15 / 100))
  let total := jadd subtotal vat
  { id := db.delivery_notes.length + 1
    deliveryNoteNumber := noteNumber db
    clientName := req.clientName
    date := req.date
    address := req.address
    contactPerson := req.contactPerson
    contactNumber := req.contactNumber
    jobNo := req.jobNo
    ceNumber := req.ceNumber
    subtotal := subtotal
    vat := vat
    total := total
    createdAt := now }

/-- The committed effect of a successful `POST /delivery-notes`: insert the
note row, insert the items passing `validInsert`, update the counter; the
returned string is the delivery-note number. -/
def createDeliveryNote (db : DB) (req : NoteReq) (now : String) :
    DB × String :=
  let row := noteRowOf db req now
  let inserted := req.items.filter validInsert
  ({ db with
      delivery_notes := db.delivery_notes ++ [row]
      delivery_note_items := db.delivery_note_items ++
        inserted.map (fun item => ⟨row.id, item.quantity, item.description, item.price⟩)
      counters := countersUpdate db.counters "deliveryNoteCounter" (noteNewCount db) },
   noteNumber db)

/-! ## Waybill layout (GET /shipments/:trackingNumber/waybill,
src/server.js:560-721) -/

/-- `const padding = 40;` of the waybill route. -/
def padding : ℚ := 40

/-- Truthiness of a `REAL`-or-`NULL` column value read back as a JS
number. -/
def chargeTruthy : Option ℚ → Bool
  | some q => decide (q ≠ 0)
  | none => false

/-- Header-box sizing (src/server.js:624-625):
`let headerBoxHeight = 70; if (shipment.courier_charge) headerBoxHeight += 20;`.
Job number and CE number are drawn conditionally but do not change the
height. -/
def headerBoxHeight (shipment : ShipmentRow) : ℚ :=
  70 + (if chargeTruthy shipment.courier_charge then 20 else 0)

/-- How many of the three optional header fields (job number, CE number,
courier charge) are present (truthy) on a shipment row. -/
def presentOptionalCount (s : ShipmentRow) : ℕ :=
  (if truthy s.associatedJobNo then 1 else 0) +
    (if truthy s.ceNumber then 1 else 0) +
    (if chargeTruthy s.courier_charge then 1 else 0)

/-- An abstract drawing instruction: text at a position with a font size,
a rectangle, a line, or an image. -/
inductive DrawInstr where
  | text (s : String) (x y size : ℚ)
  | rect (x y w h : ℚ)
  | line (x1 y1 x2 y2 : ℚ)
  | image (x y w h : ℚ)
deriving DecidableEq

/-- A page: its width and the instructions drawn on it so far. -/
structure Page where
  w : ℚ
  instrs : List DrawInstr
deriving DecidableEq

/-- A default page (used only as the `getD` fallback in statements). -/
def emptyPage : Page := ⟨0, []⟩

/-- The signature block drawn on the last page (src/server.js:696-702).
`docWidth` is the first page's width (the outer `width` variable, used for
the recipient-signature x), `pageWidth` the current page's width. -/
def sigBlock (docWidth pageWidth : ℚ) : List DrawInstr :=
  let signatureY := padding + 80
  [ .rect padding (signatureY - 60) (pageWidth - padding * 2) 60,
    .line padding (signatureY - 20) (pageWidth - padding) (signatureY - 20),
    .text "Sender Signature:" (padding + 10) (signatureY - 15) 10,
    .text "Recipient Signature:" (docWidth / 2 + 10) (signatureY - 15) 10 ]

/-- `if (settings.disclaimer) page.drawText(settings.disclaimer, ...)`
(src/server.js:704): drawn only when the setting is a truthy string. -/
def discInstrs (disclaimer : Option String) : List DrawInstr :=
  match disclaimer with
  | some d => if d = "" then [] else [.text d padding padding 8]
  | none => []

/-- The page-number string stamped on page `i` (0-based) of `n`. -/
def pageNumberText (i n : ℕ) : String :=
  "Page " ++ toString (i + 1) ++ " of " ++ toString n

/-- The footer drawn on every page (src/server.js:703-709): disclaimer (if
configured), creation date right-aligned, page number centered, all at
`y = padding`. -/
def footerInstrs (widthOf : String → ℚ) (disclaimer : Option String)
    (creationDate : String) (pageWidth : ℚ) (n i : ℕ) : List DrawInstr :=
  discInstrs disclaimer
    ++ [.text creationDate (pageWidth - padding - widthOf creationDate) padding 10]
    ++ [.text (pageNumberText i n)
          ((pageWidth - widthOf (pageNumberText i n)) / 2) padding 10]

/-- One iteration of the finalization loop (src/server.js:693-710) on page
`i` of `n`: the signature block when `i = n - 1`, then the footer. -/
def stampPage (widthOf : String → ℚ) (disclaimer : Option String)
    (creationDate : String) (docWidth : ℚ) (n i : ℕ) (p : Page) : Page :=
  { p with instrs := p.instrs
      ++ (if i = n - 1 then sigBlock docWidth p.w else [])
      ++ footerInstrs widthOf disclaimer creationDate p.w n i }

/-- Maps an index-aware function over a list, indices starting at `i`. -/
def stampAll (f : ℕ → Page → Page) : ℕ → List Page → List Page
  | _, [] => []
  | i, p :: ps => f i p :: stampAll f (i + 1) ps

/-- The finalization pass: `const pages = pdfDoc.getPages();` then the loop
stamping every page with the stable total count `pages.length`. -/
def finalizePages (widthOf : String → ℚ) (disclaimer : Option String)
    (creationDate : String) (docWidth : ℚ) (pages : List Page) : List Page :=
  stampAll (fun i p => stampPage widthOf disclaimer creationDate docWidth pages.length i p)
    0 pages

/-! ## Sample data used in counterexamples and witnesses -/

/-- A shipment row with no optional header field. -/
def rowPlain : ShipmentRow where
  id := 1
  trackingNumber := "T1001"
  senderName := .str "A"
  senderContact := .nullv
  senderAddress := .str "addr"
  recipientName := .str "B"
  recipientContact := .nullv
  recipientAddress := .str "addr2"
  associatedJobNo := .nullv
  ceNumber := .nullv
  status := .str "Pending"
  createdAt := "now"
  courier_charge := none

/-- `rowPlain` with only a courier charge present. -/
def rowCharge : ShipmentRow :=
  { rowPlain with courier_charge := some 50 }

/-- `rowPlain` with only a job number present. -/
def rowJob : ShipmentRow :=
  { rowPlain with associatedJobNo := .str "J1" }

/-- A shipment request with required fields only. -/
def reqPlain : ShipmentReq where
  senderName := .str "A"
  senderContact := .undefv
  senderAddress := .str "addr"
  recipientName := .str "B"
  recipientContact := .undefv
  recipientAddress := .str "addr2"
  associatedJobNo := .undefv
  ceNumber := .undefv
  elements := none
  courier_charge := .undefv

/-- A delivery-note request with the worked example's items
`[{qty:2, price:100}, {qty:1, price:50}]`. -/
def noteReqExample : NoteReq where
  clientName := .str "C"
  date := .str "2024-01-01"
  address := .str "addr"
  contactPerson := .undefv
  contactNumber := .undefv
  jobNo := .undefv
  ceNumber := .undefv
  items :=
    [ ⟨.str "thing", .num (some 2), .num (some 100)⟩,
      ⟨.str "other", .num (some 1), .num (some 50)⟩ ]

/-- A delivery-note request whose single item is excluded from persistence
(empty description) yet numeric, so it is counted in the subtotal. -/
def noteReqSkewed : NoteReq :=
  { noteReqExample with
      items := [⟨.str "", .num (some 2), .num (some 100)⟩] }

/-- A delivery-note request whose single item has a non-parsable quantity
(`"abc"`), making the subtotal `NaN` while the item itself is persisted. -/
def noteReqNaN : NoteReq :=
  { noteReqExample with
      items := [⟨.str "thing", .str "abc", .num (some 5)⟩] }

/-- An empty database: no counter rows. -/
def dbEmpty : DB := ⟨[], [], [], [], []⟩

/-- A database whose counters were seeded by `initializeDatabase`. -/
def dbInit : DB := ⟨initializeCounters [], [], [], [], []⟩

/-- A width measure that maps every string to 0 (used in witnesses). -/
def widthZero : String → ℚ := fun _ => 0

/-- Two blank A4-width pages (used in witnesses). -/
def pagesTwo : List Page := [⟨595, []⟩, ⟨595, []⟩]

/-! ## Helper lemmas -/

theorem countersUpdate_cons (a : String × ℤ) (t : List (String × ℤ))
    (name : String) (v : ℤ) :
    countersUpdate (a :: t) name v
      = (if a.1 == name then (a.1, v) else a) :: countersUpdate t name v := rfl

theorem lookupC_update (cs : List (String × ℤ)) (name : String) (v : ℤ) :
    lookupC (countersUpdate cs name v) name = (lookupC cs name).map (fun _ => v) := by
  induction cs with
  | nil => rfl
  | cons a t ih =>
    rw [countersUpdate_cons]
    by_cases hb : a.1 = name
    · simp [lookupC, hb]
    · rw [if_neg (by simp [hb])]
      simp only [lookupC] at ih ⊢
      rw [List.find?_cons_of_neg _ (by simp [hb]),
        List.find?_cons_of_neg _ (by simp [hb])]
      exact ih

theorem lookupC_append_of_none (cs l : List (String × ℤ)) (name : String)
    (h : lookupC cs name = none) : lookupC (cs ++ l) name = lookupC l name := by
  induction cs with
  | nil => rfl
  | cons a t ih =>
    cases hb : (a.1 == name) with
    | true => simp [lookupC, List.find?_cons, hb] at h
    | false =>
      simp only [lookupC, List.cons_append, List.find?_cons, hb] at h ⊢
      exact ih h

theorem lookupC_append_of_some (cs l : List (String × ℤ)) (name : String)
    (v : ℤ) (h : lookupC cs name = some v) :
    lookupC (cs ++ l) name = some v := by
  induction cs with
  | nil => simp [lookupC] at h
  | cons a t ih =>
    cases hb : (a.1 == name) with
    | true => simpa [lookupC, List.find?_cons, hb] using h
    | false =>
      simp only [lookupC, List.cons_append, List.find?_cons, hb] at h ⊢
      exact ih h

theorem any_eq_false_of_lookupC_none (cs : List (String × ℤ)) (name : String)
    (h : lookupC cs name = none) :
    cs.any (fun r => r.1 == name) = false := by
  induction cs with
  | nil => rfl
  | cons a t ih =>
    cases hb : (a.1 == name) with
    | true => simp [lookupC, List.find?_cons, hb] at h
    | false =>
      simp only [lookupC, List.find?_cons, hb] at h
      simpa [List.any_cons, hb] using ih h

theorem applyWrites_append (db : DB) (ws1 ws2 : List (DB → DB)) :
    applyWrites db (ws1 ++ ws2) = applyWrites (applyWrites db ws1) ws2 := by
  simp [applyWrites, List.foldl_append]

theorem elemInserts_counters (ers : List ElementReq) (sid : ℕ) (d : DB) :
    (applyWrites d ((ers.map (fun e =>
      elemInsert ⟨sid, e.description, e.quantity⟩)))).counters = d.counters := by
  induction ers generalizing d with
  | nil => rfl
  | cons e t ih => simpa [applyWrites, elemInsert] using ih _

theorem createShipment_counters (db : DB) (req : ShipmentReq) (now : String) :
    (createShipment db req now).1.counters
      = countersUpdate db.counters "shipmentCounter" (shipmentNewCount db) := by
  show (applyWrites db (shipmentWrites db req now)).counters = _
  rw [shipmentWrites, applyWrites_append, applyWrites_append]
  simp only [applyWrites, List.foldl_cons, List.foldl_nil]
  rw [counterWrite]
  have h1 : (applyWrites (shipmentInsert (shipmentRowOf db req now) db)
      ((elementsOf req).map (fun e =>
        elemInsert ⟨(shipmentRowOf db req now).id, e.description, e.quantity⟩))).counters
      = db.counters := by
    rw [elemInserts_counters]
    rfl
  simpa [applyWrites] using congrArg (countersUpdate · "shipmentCounter" (shipmentNewCount db)) h1

theorem initializeCounters_creates (cs : List (String × ℤ))
    (h : lookupC cs "shipmentCounter" = none) :
    lookupC (initializeCounters cs) "shipmentCounter" = some 1000 := by
  have h1 : lookupC (cs ++ [("shipmentCounter", 1000)]) "shipmentCounter" = some 1000 := by
    rw [lookupC_append_of_none _ _ _ h]; rfl
  unfold initializeCounters
  rw [show insertOrIgnore cs "shipmentCounter" 1000 = cs ++ [("shipmentCounter", 1000)] by
    unfold insertOrIgnore
    rw [any_eq_false_of_lookupC_none _ _ h]
    rfl]
  unfold insertOrIgnore
  by_cases h2 : ((cs ++ [("shipmentCounter", 1000)]).any
      (fun r => r.1 == "deliveryNoteCounter")) = true
  · rw [if_pos h2]; exact h1
  · rw [if_neg h2]
    exact lookupC_append_of_some _ _ _ _ h1

/-! ## Claim theorems -/

/-- C1: when the named counter row holds value `c`, a shipment creation
persists `c + 1` as the new counter value and responds with tracking number
`"T" ++ (c+1)`, and a delivery-note creation persists `c + 1` on its counter
and responds with note number `"DN" ++ (c+1)`. -/
theorem counter_allocation_persists_and_formats
    (db : DB) (sreq : ShipmentReq) (nreq : NoteReq) (now : String) (c d : ℤ)
    (hs : lookupC db.counters "shipmentCounter" = some c)
    (hd : lookupC db.counters "deliveryNoteCounter" = some d) :
    lookupC (createShipment db sreq now).1.counters "shipmentCounter" = some (c + 1) ∧
    (createShipment db sreq now).2 = "T" ++ toString (c + 1) ∧
    lookupC (createDeliveryNote db nreq now).1.counters "deliveryNoteCounter" = some (d + 1) ∧
    (createDeliveryNote db nreq now).2 = "DN" ++ toString (d + 1) := by
  have hsc : shipmentNewCount db = c + 1 := by simp [shipmentNewCount, hs]
  have hnc : noteNewCount db = d + 1 := by simp [noteNewCount, hd]
  refine ⟨?_, ?_, ?_, ?_⟩
  · rw [createShipment_counters, hsc, lookupC_update, hs]; rfl
  · show shipmentTrackingNumber db = _
    rw [shipmentTrackingNumber, hsc]
  · show lookupC (countersUpdate db.counters "deliveryNoteCounter" (noteNewCount db))
        "deliveryNoteCounter" = some (d + 1)
    rw [hnc, lookupC_update, hd]; rfl
  · show noteNumber db = _
    rw [noteNumber, hnc]

/-- Witness for C1 at a freshly initialized database (both counters 1000):
the persisted values become 1001 and the identifiers are `T1001` / `DN1001`. -/
theorem counter_allocation_witness :
    lookupC dbInit.counters "shipmentCounter" = some 1000 ∧
    lookupC dbInit.counters "deliveryNoteCounter" = some 1000 ∧
    lookupC (createShipment dbInit reqPlain "now").1.counters "shipmentCounter" = some 1001 ∧
    (createShipment dbInit reqPlain "now").2 = "T1001" ∧
    lookupC (createDeliveryNote dbInit noteReqExample "now").1.counters
        "deliveryNoteCounter" = some 1001 ∧
    (createDeliveryNote dbInit noteReqExample "now").2 = "DN1001" := by
  have h := counter_allocation_persists_and_formats dbInit reqPlain noteReqExample
    "now" 1000 1000 (by decide) (by decide)
  refine ⟨by decide, by decide, ?_, ?_, ?_, ?_⟩
  · rw [h.1]; decide
  · rw [h.2.1]; decide
  · rw [h.2.2.1]; decide
  · rw [h.2.2.2]; decide

/-- C3: a shipment-creation request that fails at any statement after the
counter read and before commit leaves the counters table unchanged and makes
no shipment or shipment-element row visible, and returns no tracking
number (the handler rolls the transaction back). -/
theorem shipment_failure_rolls_back (db : DB) (req : ShipmentReq)
    (now : String) (k : ℕ) :
    (runShipmentTx db req now (some k)).1.counters = db.counters ∧
    (runShipmentTx db req now (some k)).1.shipments = db.shipments ∧
    (runShipmentTx db req now (some k)).1.shipment_elements = db.shipment_elements ∧
    (runShipmentTx db req now (some k)).2 = none :=
  ⟨rfl, rfl, rfl, rfl⟩

/-- C4 counterexample: on a database whose `counters` table has no
`shipmentCounter` row, a shipment creation responds with `T1001` but
persists no counter row at all (the `UPDATE` matches nothing), so a second
creation observes the same absent state and produces `T1001` again. -/
theorem absent_counter_not_created :
    lookupC dbEmpty.counters "shipmentCounter" = none ∧
    lookupC (createShipment dbEmpty reqPlain "now").1.counters "shipmentCounter" = none ∧
    (createShipment dbEmpty reqPlain "now").2 = "T1001" ∧
    (createShipment (createShipment dbEmpty reqPlain "now").1 reqPlain "now").2 = "T1001" := by
  decide

/-- C4 amended: an allocation on an absent counter row computes with the
default 1000 and returns the identifier built from 1001, but persists no
counter row (the `UPDATE` matches no row), so the absence is still visible
to subsequent allocations; the row with default 1000 is created by the
`initializeDatabase` seeding (`INSERT OR IGNORE`), not by the allocation. -/
theorem absent_counter_allocation (db : DB) (req : ShipmentReq) (now : String)
    (h : lookupC db.counters "shipmentCounter" = none) :
    lookupC (createShipment db req now).1.counters "shipmentCounter" = none ∧
    (createShipment db req now).2 = "T1001" ∧
    lookupC (initializeCounters db.counters) "shipmentCounter" = some 1000 := by
  refine ⟨?_, ?_, initializeCounters_creates _ h⟩
  · rw [createShipment_counters, lookupC_update, h]; rfl
  · show shipmentTrackingNumber db = _
    rw [shipmentTrackingNumber, shipmentNewCount, h]
    rfl

/-- Witness for the amended C4 at the empty database. -/
theorem absent_counter_allocation_witness :
    lookupC dbEmpty.counters "shipmentCounter" = none ∧
    lookupC (createShipment dbEmpty reqPlain "x").1.counters "shipmentCounter" = none ∧
    (createShipment dbEmpty reqPlain "x").2 = "T1001" ∧
    lookupC (initializeCounters dbEmpty.counters) "shipmentCounter" = some 1000 := by
  have h := absent_counter_allocation dbEmpty reqPlain "x" (by decide)
  exact ⟨by decide, h.1, h.2.1, h.2.2⟩

/-- C5 counterexample: no base height and fixed increment make the header
box height equal `base + increment * (number of present optional fields)`:
a charge-only shipment forces the increment to 20, a job-number-only
shipment forces it to 0 (its height stays at 70). -/
theorem header_height_not_per_field :
    ¬ ∃ base inc : ℚ, ∀ s : ShipmentRow,
        headerBoxHeight s = base + inc * (presentOptionalCount s : ℚ) := by
  rintro ⟨base, inc, h⟩
  have h0 := h rowPlain
  have h1 := h rowCharge
  have h2 := h rowJob
  simp only [headerBoxHeight, presentOptionalCount, chargeTruthy, truthy,
    rowPlain, rowCharge, rowJob] at h0 h1 h2
  norm_num at h0 h1 h2
  rw [if_neg (show ¬(("J1" : String) = "") by decide)] at h2
  linarith

/-- C5 amended: the header box height depends only on the courier charge:
70 base, plus 20 exactly when the charge is present (truthy); the job and
CE numbers never change it. -/
theorem header_height_charge_only (s : ShipmentRow) (j c : JsVal) :
    headerBoxHeight s = (if chargeTruthy s.courier_charge then 90 else 70) ∧
    headerBoxHeight { s with associatedJobNo := j, ceNumber := c } = headerBoxHeight s := by
  constructor
  · by_cases h : chargeTruthy s.courier_charge = true
    · rw [headerBoxHeight, if_pos h, if_pos h]; norm_num
    · rw [headerBoxHeight, if_neg h, if_neg h]; norm_num
  · rfl

theorem stampAll_length (f : ℕ → Page → Page) (i : ℕ) (ps : List Page) :
    (stampAll f i ps).length = ps.length := by
  induction ps generalizing i with
  | nil => rfl
  | cons p t ih => simp [stampAll, ih]

theorem stampAll_getD (f : ℕ → Page → Page) (i j : ℕ) (ps : List Page)
    (h : j < ps.length) :
    (stampAll f i ps).getD j emptyPage = f (i + j) (ps.getD j emptyPage) := by
  induction ps generalizing i j with
  | nil => simp at h
  | cons p t ih =>
    cases j with
    | zero => simp [stampAll]
    | succ j' =>
      have hj : j' < t.length := by simpa using h
      simp only [stampAll, List.getD_cons_succ]
      rw [ih (i + 1) j' hj]
      congr 1
      omega

theorem footerInstrs_shape (widthOf : String → ℚ) (disclaimer : Option String)
    (creationDate : String) (pw : ℚ) (n i : ℕ) :
    ∀ ins ∈ footerInstrs widthOf disclaimer creationDate pw n i,
      ∃ s x sz, ins = DrawInstr.text s x padding sz := by
  intro ins hmem
  rw [footerInstrs] at hmem
  rcases List.mem_append.1 hmem with hmem' | hpn
  · rcases List.mem_append.1 hmem' with hd | hdate
    · cases disclaimer with
      | none => simp [discInstrs] at hd
      | some d =>
        by_cases hde : d = ""
        · rw [discInstrs, if_pos hde] at hd; simp at hd
        · rw [discInstrs, if_neg hde] at hd
          rcases List.mem_singleton.1 hd with rfl
          exact ⟨d, padding, 8, rfl⟩
    · rcases List.mem_singleton.1 hdate with rfl
      exact ⟨creationDate, _, 10, rfl⟩
  · rcases List.mem_singleton.1 hpn with rfl
    exact ⟨pageNumberText i n, _, 10, rfl⟩

theorem sigBlock_not_in_footer (docWidth pw : ℚ) (widthOf : String → ℚ)
    (disclaimer : Option String) (creationDate : String) (n i : ℕ) :
    ∀ ins ∈ sigBlock docWidth pw,
      ins ∉ footerInstrs widthOf disclaimer creationDate pw n i := by
  intro ins hs hf
  obtain ⟨s, x, sz, rfl⟩ :=
    footerInstrs_shape widthOf disclaimer creationDate pw n i _ hf
  rw [sigBlock] at hs
  simp only [List.mem_cons, List.mem_singleton] at hs
  rcases hs with h | h | h | h | h
  · exact DrawInstr.noConfusion h
  · exact DrawInstr.noConfusion h
  · simp only [DrawInstr.text.injEq] at h
    have hy : padding = padding + 80 - 15 := h.2.2.1
    rw [padding] at hy
    norm_num at hy
  · simp only [DrawInstr.text.injEq] at h
    have hy : padding = padding + 80 - 15 := h.2.2.1
    rw [padding] at hy
    norm_num at hy
  · exact absurd h (List.not_mem_nil _)

/-- C6: the finalization pass keeps the page count `N = pages.length`
stable; page `i` (0-based) is stamped with `"Page (i+1) of N"`, the
disclaimer is drawn on every page when configured (truthy), and the
signature block is drawn on the last page, and on any other page only if
its instructions were already there before the pass. -/
theorem finalize_pass_stamps (widthOf : String → ℚ) (disclaimer : Option String)
    (creationDate : String) (docWidth : ℚ) (pages : List Page) (i : ℕ)
    (h : i < pages.length) :
    (finalizePages widthOf disclaimer creationDate docWidth pages).length = pages.length ∧
    DrawInstr.text (pageNumberText i pages.length)
        (((pages.getD i emptyPage).w - widthOf (pageNumberText i pages.length)) / 2) padding 10
      ∈ ((finalizePages widthOf disclaimer creationDate docWidth pages).getD i emptyPage).instrs ∧
    (∀ d, disclaimer = some d → d ≠ "" →
      DrawInstr.text d padding padding 8
        ∈ ((finalizePages widthOf disclaimer creationDate docWidth pages).getD i emptyPage).instrs) ∧
    (i = pages.length - 1 →
      ∀ ins ∈ sigBlock docWidth (pages.getD i emptyPage).w,
        ins ∈ ((finalizePages widthOf disclaimer creationDate docWidth pages).getD i emptyPage).instrs) ∧
    (∀ ins ∈ sigBlock docWidth (pages.getD i emptyPage).w,
      ins ∈ ((finalizePages widthOf disclaimer creationDate docWidth pages).getD i emptyPage).instrs →
        ins ∈ (pages.getD i emptyPage).instrs ∨ i = pages.length - 1) := by
  have hout : (finalizePages widthOf disclaimer creationDate docWidth pages).getD i emptyPage
      = stampPage widthOf disclaimer creationDate docWidth pages.length i
          (pages.getD i emptyPage) := by
    rw [finalizePages, stampAll_getD _ 0 i _ h, Nat.zero_add]
  refine ⟨stampAll_length _ _ _, ?_, ?_, ?_, ?_⟩
  · rw [hout]
    simp [stampPage, footerInstrs]
  · intro d hd hde
    subst hd
    rw [hout]
    simp [stampPage, footerInstrs, discInstrs, hde]
  · intro hi ins hins
    rw [hout, stampPage, if_pos hi]
    exact List.mem_append.2 (Or.inl (List.mem_append.2 (Or.inr hins)))
  · intro ins hins hmem
    by_cases hi : i = pages.length - 1
    · exact Or.inr hi
    · rw [hout, stampPage, if_neg hi] at hmem
      rcases List.mem_append.1 hmem with hmem' | hfoot
      · rcases List.mem_append.1 hmem' with hp | hnil
        · exact Or.inl hp
        · exact absurd hnil (List.not_mem_nil _)
      · exact absurd hfoot
          (sigBlock_not_in_footer docWidth (pages.getD i emptyPage).w widthOf
            disclaimer creationDate pages.length i ins hins)

/-- Witness for C6 on two blank pages with a configured disclaimer:
the first page receives `"Page 1 of 2"` and the disclaimer. -/
theorem finalize_pass_stamps_witness :
    0 < pagesTwo.length ∧
    (finalizePages widthZero (some "E&OE") "2024-01-01" 595 pagesTwo).length
      = pagesTwo.length ∧
    DrawInstr.text (pageNumberText 0 pagesTwo.length)
        (((pagesTwo.getD 0 emptyPage).w - widthZero (pageNumberText 0 pagesTwo.length)) / 2)
        padding 10
      ∈ ((finalizePages widthZero (some "E&OE") "2024-01-01" 595 pagesTwo).getD 0 emptyPage).instrs ∧
    DrawInstr.text "E&OE" padding padding 8
      ∈ ((finalizePages widthZero (some "E&OE") "2024-01-01" 595 pagesTwo).getD 0 emptyPage).instrs := by
  have H := finalize_pass_stamps widthZero (some "E&OE") "2024-01-01" 595 pagesTwo 0
    (by decide)
  exact ⟨by decide, H.1, H.2.1, H.2.2.1 "E&OE" rfl (by decide)⟩

theorem itemsSubtotal_go (items : List NoteItemReq) (qs : List (ℚ × ℚ))
    (hp : List.Forall₂ (fun it qp =>
      parseFloat it.quantity = some qp.1 ∧ parseFloat it.price = some qp.2) items qs)
    (a : ℚ) :
    items.foldl (fun acc item =>
        jadd acc (jmul (parseFloat item.quantity) (parseFloat item.price)))
        (some a)
      = some (a + (qs.map (fun qp => qp.1 * qp.2)).sum) := by
  induction hp generalizing a with
  | nil => simp
  | cons hhead _ ih =>
    rw [List.foldl_cons, hhead.1, hhead.2]
    show List.foldl _ (jadd (some a) (some _)) _ = _
    rw [jadd, ih]
    rw [List.map_cons, List.sum_cons, add_assoc]

/-- C7: a delivery-note creation persists the note row with
`subtotal = Σ quantity*price` over the items (when every quantity and price
parses to a number), `vat = subtotal * 0.15` and `total = subtotal + vat`. -/
theorem delivery_note_arithmetic (db : DB) (req : NoteReq) (now : String)
    (qs : List (ℚ × ℚ))
    (hp : List.Forall₂ (fun it qp =>
      parseFloat it.quantity = some qp.1 ∧ parseFloat it.price = some qp.2)
      req.items qs) :
    (createDeliveryNote db req now).1.delivery_notes
        = db.delivery_notes ++ [noteRowOf db req now] ∧
    (noteRowOf db req now).subtotal = some ((qs.map (fun qp => qp.1 * qp.2)).sum) ∧
    (noteRowOf db req now).vat
        = some ((qs.map (fun qp => qp.1 * qp.2)).sum * (15 / 100)) ∧
    (noteRowOf db req now).total
        = some ((qs.map (fun qp => qp.1 * qp.2)).sum
            + (qs.map (fun qp => qp.1 * qp.2)).sum * (15 / 100)) := by
  have hsub : itemsSubtotal req.items = some ((qs.map (fun qp => qp.1 * qp.2)).sum) := by
    rw [itemsSubtotal, itemsSubtotal_go req.items qs hp 0, zero_add]
  refine ⟨rfl, ?_, ?_, ?_⟩
  · show itemsSubtotal req.items = _
    exact hsub
  · show jmul (itemsSubtotal req.items) (some (15 / 100)) = _
    rw [hsub, jmul]
  · show jadd (itemsSubtotal req.items)
        (jmul (itemsSubtotal req.items) (some (15 / 100))) = _
    rw [hsub, jmul, jadd]

/-- Witness for C7 at the worked example
`[{qty:2, price:100}, {qty:1, price:50}]`: subtotal 250, VAT 37.50,
total 287.50. -/
theorem delivery_note_arithmetic_witness :
    (createDeliveryNote dbInit noteReqExample "now").1.delivery_notes
        = dbInit.delivery_notes ++ [noteRowOf dbInit noteReqExample "now"] ∧
    (noteRowOf dbInit noteReqExample "now").subtotal = some 250 ∧
    (noteRowOf dbInit noteReqExample "now").vat = some (75 / 2) ∧
    (noteRowOf dbInit noteReqExample "now").total = some (575 / 2) := by
  have H := delivery_note_arithmetic dbInit noteReqExample "now"
    [(2, 100), (1, 50)]
    (List.Forall₂.cons ⟨rfl, rfl⟩ (List.Forall₂.cons ⟨rfl, rfl⟩ List.Forall₂.nil))
  refine ⟨H.1, ?_, ?_, ?_⟩
  · rw [H.2.1]; norm_num
  · rw [H.2.2.1]; norm_num
  · rw [H.2.2.2]; norm_num

theorem wrapRun_ne_nil (measure : String → ℚ) (maxWidth : ℚ)
    (words : List String) : wrapRun measure maxWidth words ≠ [] := by
  rw [wrapRun]
  intro hcon
  have := congrArg List.length hcon
  simp at this

/-- C8: both `wrapText` variants turn empty or null input into exactly one
line holding the empty string (for the MySQL variant this uses that the
empty string measures within `maxWidth`, which every width measure
satisfies), and on every input the result is a non-empty list. -/
theorem wrap_empty_one_line (measure : String → ℚ) (maxWidth : ℚ)
    (hm : measure "" ≤ maxWidth) :
    wrapText none measure maxWidth = [""] ∧
    wrapText (some "") measure maxWidth = [""] ∧
    wrapTextMy none measure maxWidth = [""] ∧
    wrapTextMy (some "") measure maxWidth = [""] ∧
    ∀ t, wrapText t measure maxWidth ≠ [] ∧ wrapTextMy t measure maxWidth ≠ [] := by
  have hstep : wrapStep measure maxWidth ([], "") "" = ([], "") := by
    simp [wrapStep, not_lt.2 hm]
  have hone : wrapRun measure maxWidth [""] = [""] := by
    rw [wrapRun, List.foldl_cons, List.foldl_nil, hstep]
    rfl
  refine ⟨rfl, rfl, hone, hone, ?_⟩
  intro t
  exact ⟨wrapRun_ne_nil _ _ _, wrapRun_ne_nil _ _ _⟩

/-- Witness for C8 with the zero width measure and `maxWidth = 0`. -/
theorem wrap_empty_one_line_witness :
    widthZero "" ≤ (0 : ℚ) ∧
    wrapText (some "") widthZero 0 = [""] ∧
    wrapTextMy (some "") widthZero 0 = [""] ∧
    wrapText (some "hello") widthZero 0 ≠ [] := by
  have H := wrap_empty_one_line widthZero 0 (le_refl 0)
  exact ⟨le_refl 0, H.2.1, H.2.2.2.1, (H.2.2.2.2 (some "hello")).1⟩

/-- C9 counterexample: the SQLite-variant `wrapText` performs no newline
normalization: the input `"a\nb"` wraps to the single line `"a\nb"`, while
the same input with the newline replaced by a space wraps to `"a b"` — the
two outputs differ. -/
theorem sqlite_wrap_keeps_newlines :
    wrapText (some "a\nb") widthZero 0 = ["a\nb"] ∧
    wrapText (some "a b") widthZero 0 = ["a b"] ∧
    wrapText (some "a\nb") widthZero 0 ≠ wrapText (some "a b") widthZero 0 := by
  refine ⟨by decide, by decide, by decide⟩

theorem sanitizeChars_no_newline (l : List Char) :
    ∀ c ∈ sanitizeChars l, c ≠ '\r' ∧ c ≠ '\n' := by
  induction l using sanitizeChars.induct with
  | case1 => simp [sanitizeChars]
  | case2 rest ih =>
    rw [sanitizeChars.eq_2]
    intro c hc
    rcases List.mem_cons.1 hc with rfl | hc'
    · exact ⟨by decide, by decide⟩
    · exact ih c hc'
  | case3 rest h ih =>
    rw [sanitizeChars.eq_3 rest h]
    intro c hc
    rcases List.mem_cons.1 hc with rfl | hc'
    · exact ⟨by decide, by decide⟩
    · exact ih c hc'
  | case4 rest ih =>
    rw [sanitizeChars.eq_4]
    intro c hc
    rcases List.mem_cons.1 hc with rfl | hc'
    · exact ⟨by decide, by decide⟩
    · exact ih c hc'
  | case5 c rest h1 h2 h3 ih =>
    rw [sanitizeChars.eq_5 c rest h1 h2 h3]
    intro x hx
    rcases List.mem_cons.1 hx with rfl | hx'
    · exact ⟨fun hh => h2 hh, fun hh => h3 hh⟩
    · exact ih x hx'

theorem sanitizeChars_eq_self (l : List Char)
    (h : ∀ c ∈ l, c ≠ '\r' ∧ c ≠ '\n') : sanitizeChars l = l := by
  induction l with
  | nil => rfl
  | cons c rest ih =>
    have hc := h c (List.mem_cons_self _ _)
    rw [sanitizeChars.eq_5 c rest (fun r hcr _ => hc.1 hcr) (fun hcr => hc.1 hcr)
      (fun hcn => hc.2 hcn)]
    rw [ih (fun x hx => h x (List.mem_cons_of_mem _ hx))]

theorem sanitizeChars_ne_nil (c : Char) (rest : List Char) :
    sanitizeChars (c :: rest) ≠ [] := by
  by_cases h1 : c = '\r'
  · subst h1
    cases rest with
    | nil => rw [sanitizeChars.eq_3 _ (fun _ hh => by cases hh)]; simp
    | cons d rest2 =>
      by_cases hd : d = '\n'
      · subst hd; rw [sanitizeChars.eq_2]; simp
      · rw [sanitizeChars.eq_3 _ (fun r hh => by injection hh with ha hb; exact hd ha)]
        simp
  · by_cases h2 : c = '\n'
    · subst h2; rw [sanitizeChars.eq_4]; simp
    · rw [sanitizeChars.eq_5 c rest (fun r hc _ => h1 hc) h1 h2]; simp

theorem sanitize_idem (s : String) : sanitize (sanitize s) = sanitize s :=
  congrArg String.mk (sanitizeChars_eq_self _ (sanitizeChars_no_newline s.toList))

theorem sanitize_ne_empty (s : String) (h : s ≠ "") : sanitize s ≠ "" := by
  intro hcon
  cases s with
  | mk data =>
    cases data with
    | nil => exact h rfl
    | cons c rest =>
      have hnil : sanitizeChars (c :: rest) = [] := congrArg String.toList hcon
      exact sanitizeChars_ne_nil c rest hnil

/-- C9 amended: only the MySQL-variant `wrapText` normalizes newlines
(`\r\n`, `\n`, `\r`, each replaced by a single space) before wrapping, so
it wraps any input identically to that input with its newlines already
replaced, and its sanitized text contains no newline characters; the
SQLite variant performs no such normalization. -/
theorem mysql_wrap_normalizes (s : String) (measure : String → ℚ)
    (maxWidth : ℚ) :
    wrapTextMy (some s) measure maxWidth
      = wrapTextMy (some (sanitize s)) measure maxWidth ∧
    ∀ c ∈ (sanitize s).toList, c ≠ '\r' ∧ c ≠ '\n' := by
  constructor
  · by_cases hs : s = ""
    · subst hs; rfl
    · show wrapRun measure maxWidth (jsSplit (if s = "" then "" else sanitize s))
        = wrapRun measure maxWidth
            (jsSplit (if sanitize s = "" then "" else sanitize (sanitize s)))
      rw [if_neg hs, if_neg (sanitize_ne_empty s hs), sanitize_idem]
  · exact fun c hc => sanitizeChars_no_newline s.toList c hc

/-- C10: the persisted delivery-note subtotal always ranges over every
submitted item via `parseFloat(quantity) * parseFloat(price)`, while only
items with truthy description, truthy quantity and price of number type
are persisted; on a concrete input whose item is dropped from persistence
the stored subtotal (200) differs from the sum over the persisted items
(0); and a persisted item with non-parsable quantity makes the stored
subtotal, vat and total `NaN`. -/
theorem subtotal_counts_every_submitted_item :
    (∀ (db : DB) (req : NoteReq) (now : String),
      (noteRowOf db req now).subtotal = itemsSubtotal req.items ∧
      (createDeliveryNote db req now).1.delivery_note_items
        = db.delivery_note_items ++ (req.items.filter validInsert).map
            (fun item => ⟨(noteRowOf db req now).id, item.quantity,
              item.description, item.price⟩)) ∧
    ((noteRowOf dbInit noteReqSkewed "now").subtotal = some 200 ∧
      noteReqSkewed.items.filter validInsert = [] ∧
      itemsSubtotal (noteReqSkewed.items.filter validInsert) = some 0 ∧
      (200 : ℚ) ≠ 0) ∧
    ((noteRowOf dbInit noteReqNaN "now").subtotal = none ∧
      (noteRowOf dbInit noteReqNaN "now").vat = none ∧
      (noteRowOf dbInit noteReqNaN "now").total = none ∧
      noteReqNaN.items.filter validInsert = noteReqNaN.items) := by
  have habc : parseFloatStr "abc" = none := by decide
  refine ⟨fun db req now => ⟨rfl, rfl⟩, ⟨?_, ?_, ?_, by norm_num⟩, ⟨?_, ?_, ?_, ?_⟩⟩
  · show itemsSubtotal noteReqSkewed.items = some 200
    simp [itemsSubtotal, noteReqSkewed, parseFloat, jadd, jmul]
    norm_num
  · show noteReqSkewed.items.filter validInsert = []
    simp [noteReqSkewed, validInsert, truthy]
  · show itemsSubtotal (noteReqSkewed.items.filter validInsert) = some 0
    simp [noteReqSkewed, validInsert, truthy, itemsSubtotal]
  · show itemsSubtotal noteReqNaN.items = none
    simp [itemsSubtotal, noteReqNaN, parseFloat, jadd, jmul, habc]
  · show jmul (itemsSubtotal noteReqNaN.items) (some (15 / 100)) = none
    simp [itemsSubtotal, noteReqNaN, parseFloat, jadd, jmul, habc]
  · show jadd (itemsSubtotal noteReqNaN.items)
        (jmul (itemsSubtotal noteReqNaN.items) (some (15 / 100))) = none
    simp [itemsSubtotal, noteReqNaN, parseFloat, jadd, jmul, habc]
  · show noteReqNaN.items.filter validInsert = noteReqNaN.items
    simp [noteReqNaN, validInsert, truthy, isNumber]

end Courier
